import Mathlib

/-!
Shallow embedding of the financial analytics engine of the
`personal-finance` repository:

* `src/services/patternDetectionService.ts` — `detectRecurringTransactions`,
  `detectAnomalies`;
* `services/forecastingService.ts` — `generateMonthlyForecast`,
  `generateCategoryForecasts` and their private helpers.

Modelling conventions:

* Finite JavaScript numbers are modelled as exact rationals (`ℚ`); the results
  of `Math.sqrt` are modelled as real numbers (`ℝ`).  The special values
  `NaN`, `+Infinity`, `-Infinity` that JavaScript division by zero can produce
  are modelled explicitly by the types `JNum` (over `ℚ`) and `JReal` (over
  `ℝ`), with the ECMAScript semantics for arithmetic and comparisons.
* `Date` values are modelled by their time value: milliseconds since the Unix
  epoch (`ℤ`), with the host timezone taken to be UTC, so that the local-time
  accessors (`getFullYear`, `getMonth`, `setMonth`, `new Date(y, m, d)`) and
  the UTC-based `toISOString` agree.  Calendar conversions implement the
  proleptic Gregorian calendar exactly as ECMAScript's `MakeDay` does.
* JavaScript objects used as string-keyed maps are modelled as association
  lists in insertion order; all keys produced by this code contain a `-` or
  are `YYYY-MM` strings, hence are never array indices, so insertion order is
  exactly ECMAScript's `Object.entries` enumeration order.
* `Array.prototype.sort` (ES2019+) is a stable sort; two stable sorts with
  the same total preorder agree elementwise, so it is modelled with
  `List.insertionSort` (also stable, and structurally recursive, hence
  evaluable by the kernel), using the preorder induced by the numeric or
  string comparator in the source.
* A thrown `TypeError` (reading a property of `undefined`) is modelled by
  `Option`: functions that can throw return `none` in exactly the situations
  where the JavaScript code throws.
-/

namespace PersonalFinance

/-! ### JavaScript numbers with special values -/

/-- A JavaScript number arising from rational arithmetic: either a finite
(exact rational) value or one of the special values `NaN`, `+Infinity`,
`-Infinity`. -/
inductive JNum where
  | fin : ℚ → JNum
  | posInf : JNum
  | negInf : JNum
  | nan : JNum
deriving DecidableEq

instance : OfNat JNum n := ⟨JNum.fin n⟩

/-- ECMAScript addition. -/
def jadd : JNum → JNum → JNum
  | .nan, _ => .nan
  | _, .nan => .nan
  | .posInf, .negInf => .nan
  | .negInf, .posInf => .nan
  | .posInf, _ => .posInf
  | _, .posInf => .posInf
  | .negInf, _ => .negInf
  | _, .negInf => .negInf
  | .fin a, .fin b => .fin (a + b)

/-- ECMAScript negation. -/
def jneg : JNum → JNum
  | .nan => .nan
  | .posInf => .negInf
  | .negInf => .posInf
  | .fin a => .fin (-a)

/-- ECMAScript subtraction. -/
def jsub (a b : JNum) : JNum := jadd a (jneg b)

/-- ECMAScript multiplication. -/
def jmul : JNum → JNum → JNum
  | .nan, _ => .nan
  | _, .nan => .nan
  | .posInf, .posInf => .posInf
  | .posInf, .negInf => .negInf
  | .negInf, .posInf => .negInf
  | .negInf, .negInf => .posInf
  | .posInf, .fin b => if b = 0 then .nan else if 0 < b then .posInf else .negInf
  | .fin a, .posInf => if a = 0 then .nan else if 0 < a then .posInf else .negInf
  | .negInf, .fin b => if b = 0 then .nan else if 0 < b then .negInf else .posInf
  | .fin a, .negInf => if a = 0 then .nan else if 0 < a then .negInf else .posInf
  | .fin a, .fin b => .fin (a * b)

/-- ECMAScript division (ignoring the sign of zero, which this code never
distinguishes): a finite numerator divided by `0` gives `NaN` when the
numerator is `0` and a signed infinity otherwise. -/
def jdiv : JNum → JNum → JNum
  | .nan, _ => .nan
  | _, .nan => .nan
  | .posInf, .posInf => .nan
  | .posInf, .negInf => .nan
  | .negInf, .posInf => .nan
  | .negInf, .negInf => .nan
  | .posInf, .fin b => if 0 ≤ b then .posInf else .negInf
  | .negInf, .fin b => if 0 ≤ b then .negInf else .posInf
  | .fin _, .posInf => .fin 0
  | .fin _, .negInf => .fin 0
  | .fin a, .fin b =>
    if b = 0 then (if a = 0 then .nan else if 0 < a then .posInf else .negInf)
    else .fin (a / b)

/-- ECMAScript `Math.min` on two values (`NaN` propagates). -/
def jmin : JNum → JNum → JNum
  | .nan, _ => .nan
  | _, .nan => .nan
  | .negInf, _ => .negInf
  | _, .negInf => .negInf
  | .posInf, b => b
  | a, .posInf => a
  | .fin a, .fin b => .fin (min a b)

/-- ECMAScript `Math.max` on two values (`NaN` propagates). -/
def jmax : JNum → JNum → JNum
  | .nan, _ => .nan
  | _, .nan => .nan
  | .posInf, _ => .posInf
  | _, .posInf => .posInf
  | .negInf, b => b
  | a, .negInf => a
  | .fin a, .fin b => .fin (max a b)

/-- ECMAScript `>` against a finite (rational) right operand: comparisons
with `NaN` are false, `+Infinity` exceeds every finite value. -/
def jgt (a : JNum) (c : ℚ) : Bool :=
  match a with
  | .fin x => decide (c < x)
  | .posInf => true
  | .negInf => false
  | .nan => false

/-- A JavaScript number arising from real (possibly irrational, because of
`Math.sqrt`) arithmetic, with the special values. -/
inductive JReal where
  | fin : ℝ → JReal
  | posInf : JReal
  | negInf : JReal
  | nan : JReal

/-- Embed a rational-valued JavaScript number into the real-valued ones. -/
def JNum.toJReal : JNum → JReal
  | .fin q => .fin (q : ℝ)
  | .posInf => .posInf
  | .negInf => .negInf
  | .nan => .nan

/-- ECMAScript addition on real-valued JavaScript numbers. -/
noncomputable def jaddR : JReal → JReal → JReal
  | .nan, _ => .nan
  | _, .nan => .nan
  | .posInf, .negInf => .nan
  | .negInf, .posInf => .nan
  | .posInf, _ => .posInf
  | _, .posInf => .posInf
  | .negInf, _ => .negInf
  | _, .negInf => .negInf
  | .fin a, .fin b => .fin (a + b)

/-- ECMAScript multiplication on real-valued JavaScript numbers. -/
noncomputable def jmulR : JReal → JReal → JReal
  | .nan, _ => .nan
  | _, .nan => .nan
  | .posInf, .posInf => .posInf
  | .posInf, .negInf => .negInf
  | .negInf, .posInf => .negInf
  | .negInf, .negInf => .posInf
  | .posInf, .fin b => if b = 0 then .nan else if 0 < b then .posInf else .negInf
  | .fin a, .posInf => if a = 0 then .nan else if 0 < a then .posInf else .negInf
  | .negInf, .fin b => if b = 0 then .nan else if 0 < b then .negInf else .posInf
  | .fin a, .negInf => if a = 0 then .nan else if 0 < a then .negInf else .posInf
  | .fin a, .fin b => .fin (a * b)

/-- ECMAScript division of two finite real values (as produced by the
category-level anomaly score `deviation / stdDev`, where `stdDev` is a square
root). -/
noncomputable def jdivR (a b : ℝ) : JReal :=
  if b = 0 then (if a = 0 then .nan else if 0 < a then .posInf else .negInf)
  else .fin (a / b)

/-- ECMAScript `Math.min` on real-valued JavaScript numbers. -/
noncomputable def jminR : JReal → JReal → JReal
  | .nan, _ => .nan
  | _, .nan => .nan
  | .negInf, _ => .negInf
  | _, .negInf => .negInf
  | .posInf, b => b
  | a, .posInf => a
  | .fin a, .fin b => .fin (min a b)

/-- ECMAScript `Math.max` on real-valued JavaScript numbers. -/
noncomputable def jmaxR : JReal → JReal → JReal
  | .nan, _ => .nan
  | _, .nan => .nan
  | .posInf, _ => .posInf
  | _, .posInf => .posInf
  | .negInf, b => b
  | a, .negInf => a
  | .fin a, .fin b => .fin (max a b)

/-- ECMAScript `>` for a real-valued JavaScript number against a real right
operand: comparisons with `NaN` are false. -/
def jgtR (a : JReal) (c : ℝ) : Prop :=
  match a with
  | .fin x => c < x
  | .posInf => True
  | .negInf => False
  | .nan => False

noncomputable instance (a : JReal) (c : ℝ) : Decidable (jgtR a c) := by
  unfold jgtR; cases a <;> infer_instance

/-! ### The calendar: ECMAScript `Date` with a UTC host timezone

A date is its time value, milliseconds since the epoch (`ℤ`).  The civil
conversions below are the standard proleptic-Gregorian algorithms, which agree
with ECMAScript's `YearFromTime`/`MonthFromTime`/`DateFromTime`/`MakeDay`. -/

/-- Milliseconds per day. -/
def msPerDay : ℤ := 86400000

/-- Day number (days since 1970-01-01) of a time value: ECMAScript
`Day(t) = floor(t / msPerDay)`. -/
def dayOf (tv : ℤ) : ℤ := Int.fdiv tv msPerDay

/-- ECMAScript `TimeWithinDay(t)`. -/
def timeWithinDay (tv : ℤ) : ℤ := Int.emod tv msPerDay

/-- Days since the epoch of the civil date `(y, m, d)` with `m ∈ [1, 12]`
(proleptic Gregorian). -/
def daysFromCivil (y m d : ℤ) : ℤ :=
  let y' := if m ≤ 2 then y - 1 else y
  let era := Int.fdiv y' 400
  let yoe := y' - era * 400
  let mp := Int.emod (m + 9) 12
  let doy := Int.fdiv (153 * mp + 2) 5 + d - 1
  let doe := yoe * 365 + Int.fdiv yoe 4 - Int.fdiv yoe 100 + doy
  era * 146097 + doe - 719468

/-- Civil date `(year, month ∈ [1,12], day)` of a day number. -/
def civilFromDays (z : ℤ) : ℤ × ℤ × ℤ :=
  let z' := z + 719468
  let era := Int.fdiv z' 146097
  let doe := z' - era * 146097
  let yoe := Int.fdiv (doe - Int.fdiv doe 1460 + Int.fdiv doe 36524 - Int.fdiv doe 146096) 365
  let y := yoe + era * 400
  let doy := doe - (365 * yoe + Int.fdiv yoe 4 - Int.fdiv yoe 100)
  let mp := Int.fdiv (5 * doy + 2) 153
  let d := doy - Int.fdiv (153 * mp + 2) 5 + 1
  let m := mp + (if mp < 10 then 3 else -9)
  (if m ≤ 2 then y + 1 else y, m, d)

/-- `getFullYear()` of a time value. -/
def tvYear (tv : ℤ) : ℤ := (civilFromDays (dayOf tv)).1

/-- `getMonth()` of a time value (0-based, as in JavaScript). -/
def tvMonth0 (tv : ℤ) : ℤ := (civilFromDays (dayOf tv)).2.1 - 1

/-- `getDate()` of a time value (day of month, 1-based). -/
def tvDom (tv : ℤ) : ℤ := (civilFromDays (dayOf tv)).2.2

/-- ECMAScript `MakeDay(y, m, d)` with a 0-based, possibly out-of-range month
and a possibly out-of-range day, both normalised exactly as in the spec. -/
def jsMakeDay (y m0 d : ℤ) : ℤ :=
  let ym := y + Int.fdiv m0 12
  let mn := Int.emod m0 12
  daysFromCivil ym (mn + 1) 1 + (d - 1)

/-- `new Date(y, m, d)` (midnight, host timezone = UTC): a time value. -/
def jsNewDate (y m0 d : ℤ) : ℤ := jsMakeDay y m0 d * msPerDay

/-- `date.setMonth(m)`: keeps the day of month and the time within the day,
normalising month overflow. -/
def jsSetMonth (tv m0 : ℤ) : ℤ :=
  jsMakeDay (tvYear tv) m0 (tvDom tv) * msPerDay + timeWithinDay tv

/-- `date.setDate(d)`: keeps year, month and time within the day. -/
def jsSetDate (tv d : ℤ) : ℤ :=
  jsMakeDay (tvYear tv) (tvMonth0 tv) d * msPerDay + timeWithinDay tv

/-- `date.setFullYear(y)`: keeps month, day of month and time within day. -/
def jsSetFullYear (tv y : ℤ) : ℤ :=
  jsMakeDay y (tvMonth0 tv) (tvDom tv) * msPerDay + timeWithinDay tv

/-- A natural number rendered in decimal, left-padded with zeros to `width`
digits (`String.padStart(width, '0')`). -/
def padNum (width : ℕ) (n : ℕ) : String :=
  let s := toString n
  String.mk (List.replicate (width - s.length) '0') ++ s

/-- The `YYYY-MM` prefix of `date.toISOString()` (extended-year format for
years outside `[0, 9999]`, per ECMA-262). -/
def isoMonthKey (tv : ℤ) : String :=
  let y := tvYear tv
  let m := tvMonth0 tv + 1
  let ys :=
    if 0 ≤ y ∧ y ≤ 9999 then padNum 4 y.toNat
    else if y < 0 then "-" ++ padNum 6 (-y).toNat
    else "+" ++ padNum 6 y.toNat
  ys ++ "-" ++ padNum 2 m.toNat

/-! ### The data model -/

/-- The transaction type enum of the Prisma schema. -/
inductive TxType where
  | INCOME : TxType
  | EXPENSE : TxType
  | TRANSFER : TxType
deriving DecidableEq

/-- The fields of a Prisma `Transaction` that the analytics engine reads
(`amount` is the result of `Number(tx.amount)`, `date` is
`tx.date.getTime()`). -/
structure Transaction where
  id : String
  description : String
  amount : ℚ
  date : ℤ
  type : TxType
  categoryId : Option String
deriving DecidableEq

/-- `TransactionWithPayee`: a transaction together with the derived `payee`
field. -/
structure TransactionWithPayee extends Transaction where
  payee : String
deriving DecidableEq

/-- `{ ...tx, payee: tx.description }`. -/
def toTWP (t : Transaction) : TransactionWithPayee :=
  { toTransaction := t, payee := t.description }

/-- The `frequency` union type of `RecurringPattern`. -/
inductive Frequency where
  | monthly : Frequency
  | weekly : Frequency
  | yearly : Frequency
  | irregular : Frequency
deriving DecidableEq

/-- A detected recurring pattern.  `confidenceScore` is real-valued because it
is built from `Math.sqrt`. -/
structure RecurringPattern where
  payee : String
  categoryId : String
  averageAmount : ℚ
  frequency : Frequency
  confidenceScore : ℝ
  lastTransactionDate : ℤ
  nextPredictedDate : Option ℤ
  transactions : List TransactionWithPayee

/-- The `severity` union type of `AnomalyDetection`. -/
inductive Severity where
  | low : Severity
  | medium : Severity
  | high : Severity
deriving DecidableEq

/-- A detected anomaly.  `amountDeviation` can carry the special values that
JavaScript division produces (`NaN`, `Infinity`); `timeDeviation` is always a
finite rational because its denominator is one of 30/7/365. -/
structure AnomalyDetection where
  transaction : TransactionWithPayee
  reason : String
  severity : Severity
  amountDeviation : Option JReal
  timeDeviation : Option ℚ

/-! ### String-keyed objects as insertion-ordered association lists -/

/-- Update the value at `k` with `f`, starting from `f init` when `k` is
absent; a fresh key is appended, matching JavaScript object insertion order. -/
def upsert {ν : Type} (k : String) (f : ν → ν) (init : ν) :
    List (String × ν) → List (String × ν)
  | [] => [(k, f init)]
  | (k₀, v) :: rest =>
    if k₀ = k then (k₀, f v) :: rest else (k₀, v) :: upsert k f init rest

/-- Group a list by a string key, preserving both the first-seen order of keys
and the order of elements within a group (the `reduce` accumulator object
pattern used throughout the source). -/
def groupByKey {α : Type} (keyOf : α → String) (xs : List α) :
    List (String × List α) :=
  xs.foldl (fun acc x => upsert (keyOf x) (fun l => l ++ [x]) [] acc) []

/-! ### `PatternDetectionService.detectRecurringTransactions` -/

/-- `transaction.categoryId || 'uncategorized'`: JavaScript `||` also replaces
the empty string (falsy). -/
def categoryIdOrDefault : Option String → String
  | none => "uncategorized"
  | some c => if c = "" then "uncategorized" else c

/-- The composite grouping key `` `${transaction.payee}-${categoryId}` ``. -/
def groupKey (tx : TransactionWithPayee) : String :=
  tx.payee ++ "-" ++ categoryIdOrDefault tx.categoryId

/-- `[...txs].sort((a, b) => a.date.getTime() - b.date.getTime())` — a stable
sort ascending by date. -/
def sortByDateAsc (txs : List TransactionWithPayee) : List TransactionWithPayee :=
  List.insertionSort (fun a b => a.date ≤ b.date) txs

/-- Code-unit lexicographic comparison of character lists — the order
`localeCompare` induces on the ASCII `YYYY-MM` keys this code sorts. -/
def charListLe : List Char → List Char → Bool
  | [], _ => true
  | _ :: _, [] => false
  | a :: as, b :: bs => if a = b then charListLe as bs else decide (a < b)

/-- Code-unit comparison of strings. -/
def strLe (a b : String) : Bool := charListLe a.data b.data

/-- The whole-day gaps between consecutive date-sorted transactions:
`Math.floor((tᵢ − tᵢ₋₁) / msPerDay)`. -/
def gapsOf : List TransactionWithPayee → List ℤ
  | a :: b :: rest => Int.fdiv (b.date - a.date) 86400000 :: gapsOf (b :: rest)
  | _ => []

/-- The arithmetic mean of the gaps (`avgInterval`); only ever used on a
nonempty gap list. -/
def meanGap (intervals : List ℤ) : ℚ :=
  (intervals.map (fun g => (g : ℚ))).sum / intervals.length

/-- The population variance of the gaps (the quantity under the square root in
the source's `stdDev`). -/
def gapVariance (intervals : List ℤ) : ℚ :=
  (intervals.map (fun g => ((g : ℚ) - meanGap intervals) ^ 2)).sum / intervals.length

/-- `stdDev = Math.sqrt(variance)` for the gap list. -/
noncomputable def gapStdDev (intervals : List ℤ) : ℝ :=
  Real.sqrt (gapVariance intervals)

/-- The frequency-classification ladder on the mean gap, with the per-band
confidence formula (`stdDev` is the gap standard deviation). -/
noncomputable def classifyFrequency (avgInterval : ℚ) (stdDev : ℝ) :
    Frequency × ℝ :=
  if 25 ≤ avgInterval ∧ avgInterval ≤ 35 then (.monthly, 0.9 - stdDev / 30)
  else if 5 ≤ avgInterval ∧ avgInterval ≤ 9 then (.weekly, 0.9 - stdDev / 7)
  else if 350 ≤ avgInterval ∧ avgInterval ≤ 380 then (.yearly, 0.9 - stdDev / 365)
  else (.irregular, 0.5 - stdDev / 30)

/-- `Math.round` on a rational (round half away from zero is irrelevant here;
ECMAScript rounds half up, i.e. `floor(x + 1/2)`). -/
def jsRound (q : ℚ) : ℤ := Int.floor (q + 1 / 2)

/-- The predicted next occurrence: one period past the last transaction date,
by frequency (`setMonth(+1)` / `setDate(+7)` / `setFullYear(+1)` /
`setDate(+round(avgInterval))`). -/
def nextDateFor (f : Frequency) (lastTxDate : ℤ) (avgInterval : ℚ) : ℤ :=
  match f with
  | .monthly => jsSetMonth lastTxDate (tvMonth0 lastTxDate + 1)
  | .weekly => jsSetDate lastTxDate (tvDom lastTxDate + 7)
  | .yearly => jsSetFullYear lastTxDate (tvYear lastTxDate + 1)
  | .irregular => jsSetDate lastTxDate (tvDom lastTxDate + jsRound avgInterval)

/-- The `frequency`/`confidenceScore`/`nextPredictedDate` triple computed for
a group from its gap list and last transaction date (the three mutable
variables of the source's loop body). -/
noncomputable def groupSignal (intervals : List ℤ) (lastTxDate : ℤ) :
    Frequency × ℝ × Option ℤ :=
  if intervals.length > 0 then
    let avgInterval := meanGap intervals
    let stdDev := gapStdDev intervals
    if stdDev < 3 then
      let fc := classifyFrequency avgInterval stdDev
      (fc.1, fc.2, some (nextDateFor fc.1 lastTxDate avgInterval))
    else (.irregular, 0, none)
  else (.irregular, 0, none)

/-- `sortedTxs[sortedTxs.length - 1].date`; the default is unreachable because
the function is only applied to groups of at least two transactions. -/
def lastDateOf (txs : List TransactionWithPayee) : ℤ :=
  (txs.getLast?).elim 0 (fun tx => tx.date)

/-- `String.prototype.split` with a one-character separator, on the character
list: every occurrence splits, empty fragments included. -/
def splitCharAux (c : Char) : List Char → List (List Char)
  | [] => [[]]
  | x :: xs =>
    let rest := splitCharAux c xs
    if x = c then [] :: rest
    else
      match rest with
      | [] => [[x]]
      | r :: rs => (x :: r) :: rs

/-- `key.split('-')`. -/
def splitChar (c : Char) (s : String) : List String :=
  (splitCharAux c s.data).map String.mk

/-- The analysis of one `[key, txs]` entry of the grouped object: `none` when
the group is skipped (`continue`) or fails the `confidenceScore > 0.6`
emission check.  Note the `key.split('-')` destructuring: `payee` and
`categoryId` are re-derived from the first two `-`-separated fragments of the
composite key, not from the grouping inputs. -/
noncomputable def analyzeGroup (key : String) (txs : List TransactionWithPayee) :
    Option RecurringPattern :=
  if txs.length < 2 then none else
  let sortedTxs := sortByDateAsc txs
  let total := (sortedTxs.map (fun tx => tx.amount)).sum
  let averageAmount := total / sortedTxs.length
  let intervals := gapsOf sortedTxs
  let sig := groupSignal intervals (lastDateOf sortedTxs)
  if sig.2.1 > 0.6 then
    some { payee := (splitChar '-' key).headD ""
           categoryId := ((splitChar '-' key).drop 1).headD ""
           averageAmount := averageAmount
           frequency := sig.1
           confidenceScore := sig.2.1
           lastTransactionDate := lastDateOf sortedTxs
           nextPredictedDate := sig.2.2
           transactions := sortedTxs }
  else none

/-- `detectRecurringTransactions`: map to payee-carrying transactions, group
by the composite key, analyse each group in enumeration order. -/
noncomputable def detectRecurringTransactions (transactions : List Transaction) :
    List RecurringPattern :=
  let txsWithPayee := transactions.map toTWP
  let grouped := groupByKey groupKey txsWithPayee
  grouped.filterMap (fun kg => analyzeGroup kg.1 kg.2)

/-! ### `PatternDetectionService.detectAnomalies` -/

/-- The category-level anomaly scan of one category group: skipped entirely
below 5 members; otherwise each transaction is scored by
`|amount − mean| / stdDev` (JavaScript division) and flagged above 2, with
severity tiers at 3 and 4. -/
noncomputable def categoryAnomalies (categoryTxs : List TransactionWithPayee) :
    List AnomalyDetection :=
  if categoryTxs.length < 5 then [] else
  let amounts := categoryTxs.map (fun tx => tx.amount)
  let mean : ℚ := amounts.sum / (amounts.length : ℚ)
  let variance : ℚ := (amounts.map (fun a => (a - mean) ^ 2)).sum / (amounts.length : ℚ)
  let stdDev : ℝ := Real.sqrt (variance : ℚ)
  categoryTxs.filterMap (fun tx =>
    let deviation : ℚ := |tx.amount - mean|
    let deviationScore := jdivR (deviation : ℝ) stdDev
    if jgtR deviationScore 2 then
      some { transaction := tx
             reason := "Unusual amount for " ++ tx.payee ++ " in this category"
             severity := if jgtR deviationScore 4 then .high
               else if jgtR deviationScore 3 then .medium else .low
             amountDeviation := some deviationScore
             timeDeviation := none }
    else none)

/-- `pattern.transactions.slice(-3)`. -/
def lastThree (txs : List TransactionWithPayee) : List TransactionWithPayee :=
  txs.drop (txs.length - 3)

/-- The pattern-level anomaly scan of one recurring pattern: the last three
member transactions sorted by date descending; an amount check of the most
recent one against `averageAmount` (JavaScript division — an average of `0`
makes the relative deviation `Infinity` or `NaN`), and a timing check when the
confidence exceeds `0.8` and a second recent transaction exists. -/
noncomputable def patternAnomalies (pattern : RecurringPattern) :
    List AnomalyDetection :=
  let recentTxs := List.insertionSort (fun a b => b.date ≤ a.date)
    (lastThree pattern.transactions)
  match recentTxs with
  | [] => []
  | latestTx :: rest =>
    let txAmount := latestTx.amount
    let amountDeviation : JNum :=
      jdiv (.fin |txAmount - pattern.averageAmount|) (.fin pattern.averageAmount)
    let amountAnoms : List AnomalyDetection :=
      if jgt amountDeviation 0.2 then
        [{ transaction := latestTx
           reason := "Unusual amount for recurring " ++ pattern.payee ++ " payment"
           severity := if jgt amountDeviation 1 then .high
             else if jgt amountDeviation 0.5 then .medium else .low
           amountDeviation := some amountDeviation.toJReal
           timeDeviation := none }]
      else []
    let timeAnoms : List AnomalyDetection :=
      if pattern.confidenceScore > 0.8 ∧ rest ≠ [] then
        match rest with
        | [] => []
        | second :: _ =>
          let latestInterval := Int.fdiv (latestTx.date - second.date) 86400000
          let expectedInterval : ℚ :=
            match pattern.frequency with
            | .weekly => 7
            | .yearly => 365
            | _ => 30
          let timeDeviation : ℚ :=
            |(latestInterval : ℚ) - expectedInterval| / expectedInterval
          if timeDeviation > 0.2 then
            [{ transaction := latestTx
               reason := "Unusual timing for recurring " ++ pattern.payee ++ " payment"
               severity := if timeDeviation > 0.6 then .high
                 else if timeDeviation > 0.4 then .medium else .low
               amountDeviation := none
               timeDeviation := some timeDeviation }]
          else []
      else []
    amountAnoms ++ timeAnoms

/-- `detectAnomalies`: the category-level anomalies of every category group
(in enumeration order), followed by the pattern-level anomalies of every
supplied pattern. -/
noncomputable def detectAnomalies (transactions : List Transaction)
    (patterns : List RecurringPattern) : List AnomalyDetection :=
  let txsWithPayee := transactions.map toTWP
  let txByCategory := groupByKey (fun tx => categoryIdOrDefault tx.categoryId) txsWithPayee
  ((txByCategory.map (fun kg => categoryAnomalies kg.2)).flatten)
    ++ ((patterns.map patternAnomalies).flatten)

/-! ### `ForecastingService` -/

/-- One row of the historical monthly totals. -/
structure MonthRec where
  month : String
  income : ℚ
  expenses : ℚ
deriving DecidableEq

/-- A fitted `{ base, slope }` pair. -/
structure LinearTrend where
  base : ℚ
  slope : ℚ
deriving DecidableEq

/-- The `{ income, expenses }` trend pair returned by `calculateTrend`. -/
structure TrendPair where
  income : LinearTrend
  expenses : LinearTrend
deriving DecidableEq

/-- A category passed to `generateCategoryForecasts`. -/
structure Category where
  id : String
  name : String
deriving DecidableEq

/-- The trend direction of a `CategoryForecast`. -/
inductive TrendDir where
  | increasing : TrendDir
  | decreasing : TrendDir
  | stable : TrendDir
deriving DecidableEq

/-- A monthly forecast entry.  `confidenceScore` is real-valued (it averages
pattern confidences) and can in principle carry special values. -/
structure MonthlyForecast where
  month : String
  predictedIncome : ℚ
  predictedExpenses : ℚ
  predictedSavings : ℚ
  confidenceScore : JReal

/-- A per-category forecast entry.  `confidenceScore` is a rational-valued
JavaScript number, `NaN` included (the R² computation divides by the total sum
of squares, which is zero for constant monthly totals). -/
structure CategoryForecast where
  categoryId : String
  categoryName : String
  currentMonthPrediction : ℚ
  nextMonthPrediction : ℚ
  trend : TrendDir
  confidenceScore : JNum
deriving DecidableEq

/-- `calculateHistoricalMonthlyTotals`: group by the `YYYY-MM` ISO prefix of
the date, summing `INCOME` into `income` and `EXPENSE` into `expenses`
(`TRANSFER` contributes a row but no amount), then sort by the month key
(`localeCompare` on ISO keys is code-unit order). -/
def calculateHistoricalMonthlyTotals (transactions : List Transaction) :
    List MonthRec :=
  let monthly := transactions.foldl (fun acc tx =>
    upsert (isoMonthKey tx.date)
      (fun v =>
        if tx.type = .INCOME then (v.1 + tx.amount, v.2)
        else if tx.type = .EXPENSE then (v.1, v.2 + tx.amount)
        else v)
      ((0 : ℚ), (0 : ℚ)) acc) []
  List.insertionSort (fun a b => strLe a.month b.month = true)
    (monthly.map (fun kv => MonthRec.mk kv.1 kv.2.1 kv.2.2))

/-- `calculateTrend`: the closed-form OLS fit of monthly totals against the
month index `0..n−1`, for income and expenses; flat zero below two months.
The slope denominator `n·Σx² − (Σx)²` is nonzero for every `n ≥ 2` because the
x-values are the distinct indices `0..n−1`, so the plain rational division
agrees with the JavaScript division. -/
def calculateTrend (monthlyData : List MonthRec) : TrendPair :=
  let n := monthlyData.length
  if n < 2 then ⟨⟨0, 0⟩, ⟨0, 0⟩⟩ else
  let xValues := (List.range n).map (fun i => (i : ℚ))
  let yIncomeValues := monthlyData.map (fun d => d.income)
  let yExpenseValues := monthlyData.map (fun d => d.expenses)
  let sumX := xValues.sum
  let sumYIncome := yIncomeValues.sum
  let sumXYIncome := (xValues.zipWith (fun x y => x * y) yIncomeValues).sum
  let sumXX := (xValues.map (fun x => x * x)).sum
  let incomeSlope := ((n : ℚ) * sumXYIncome - sumX * sumYIncome) /
    ((n : ℚ) * sumXX - sumX * sumX)
  let incomeBase := (sumYIncome - incomeSlope * sumX) / (n : ℚ)
  let sumYExpense := yExpenseValues.sum
  let sumXYExpense := (xValues.zipWith (fun x y => x * y) yExpenseValues).sum
  let expenseSlope := ((n : ℚ) * sumXYExpense - sumX * sumYExpense) /
    ((n : ℚ) * sumXX - sumX * sumX)
  let expenseBase := (sumYExpense - expenseSlope * sumX) / (n : ℚ)
  ⟨⟨incomeBase, incomeSlope⟩, ⟨expenseBase, expenseSlope⟩⟩

/-- The body of the `while (checkDate <= lastDay)` loop of the weekly branch
of `predictRecurringForMonth`: the number of 7-day-spaced occurrences from
`checkDate` that land inside `[firstDay, lastDay]`. -/
def weeklyOccurrences (checkDate firstDay lastDay : ℤ) : ℕ :=
  if checkDate ≤ lastDay then
    (if firstDay ≤ checkDate then 1 else 0) +
      weeklyOccurrences (checkDate + 7 * 86400000) firstDay lastDay
  else 0
termination_by (lastDay + 7 * 86400000 - checkDate).toNat
decreasing_by
  simp only [Int.lt_toNat, Int.toNat_of_nonneg (by omega : (0 : ℤ) ≤ lastDay + 7 * 86400000 - checkDate)] at *
  omega

/-- `calculateVariance`: the population variance of a list normalised by the
squared mean (a coefficient of variation); zero below two values, and a
JavaScript division otherwise — `NaN` for an all-zero list, `Infinity` for a
zero mean with nonzero variance. -/
def calculateVariance (values : List ℚ) : JNum :=
  let n := values.length
  if n < 2 then .fin 0 else
  let mean : ℚ := values.sum / (n : ℚ)
  let variance : ℚ := (values.map (fun v => (v - mean) ^ 2)).sum / (n : ℚ)
  jdiv (.fin variance) (.fin (mean * mean))

/-- `calculateConfidenceScore` for a monthly forecast: a weighted mix of a
data-quantity score, a consistency score (which inherits the special values of
`calculateVariance`), the mean confidence of the supplied patterns, and a
forecast-distance penalty, finally clamped by
`Math.min(0.95, Math.max(0.3, ·))` (which propagates `NaN`). -/
noncomputable def calculateConfidenceScore (historicalData : List MonthRec)
    (_trend : TrendPair) (forecastDistance : ℕ)
    (recurringPatterns : List RecurringPattern) : JReal :=
  let dataPoints := historicalData.length
  let dataPointsScore : ℚ := min 1 ((dataPoints : ℚ) / 12)
  let incomeValues := historicalData.map (fun d => d.income)
  let expenseValues := historicalData.map (fun d => d.expenses)
  let incomeVariance := calculateVariance incomeValues
  let expenseVariance := calculateVariance expenseValues
  let varianceScore := jmax (.fin 0)
    (jsub (.fin 1) (jdiv (jadd incomeVariance expenseVariance) (.fin 2)))
  let recurringScore : ℝ :=
    if recurringPatterns.length > 0 then
      (recurringPatterns.map (fun p => p.confidenceScore)).sum /
        (recurringPatterns.length : ℝ)
    else 0
  let distanceScore : ℚ := max 0 (1 - (forecastDistance : ℚ) * 0.1)
  let confidenceScore :=
    jaddR (jaddR (jaddR (.fin ((dataPointsScore : ℝ) * 0.3))
        (jmulR varianceScore.toJReal (.fin 0.2)))
      (.fin (recurringScore * 0.3)))
      (.fin ((distanceScore : ℝ) * 0.2))
  jminR (.fin 0.95) (jmaxR (.fin 0.3) confidenceScore)

/-- `predictRecurringForMonth`: sums the expected contributions of the
supplied patterns inside the target month for one channel (`INCOME` or
`EXPENSE`).  The source reads `pattern.transactions[0].type` before any other
check, so a pattern with an empty `transactions` array makes the whole call
throw — modelled by `none`. -/
noncomputable def predictRecurringForMonth (patterns : List RecurringPattern)
    (targetMonth : ℤ) (type : TxType) : Option ℚ :=
  let firstDay := jsNewDate (tvYear targetMonth) (tvMonth0 targetMonth) 1
  let lastDay := jsNewDate (tvYear targetMonth) (tvMonth0 targetMonth + 1) 0
  patterns.foldlM (fun total pattern =>
    match pattern.transactions.head? with
    | none => none
    | some tx0 =>
      if tx0.type ≠ type then some total
      else if pattern.confidenceScore < 0.7 then some total
      else
        let lastTxDate := pattern.lastTransactionDate
        match pattern.nextPredictedDate with
        | none => some total
        | some nextDate =>
          match pattern.frequency with
          | .monthly =>
            if firstDay ≤ nextDate ∧ nextDate ≤ lastDay then
              some (total + pattern.averageAmount)
            else
              -- `monthsDiff % 1 === 0` is always true for an integer difference.
              let monthsDiff := (tvYear targetMonth - tvYear lastTxDate) * 12 +
                (tvMonth0 targetMonth - tvMonth0 lastTxDate)
              if monthsDiff > 0 then some (total + pattern.averageAmount)
              else some total
          | .weekly =>
            some (total + pattern.averageAmount *
              (weeklyOccurrences nextDate firstDay lastDay : ℚ))
          | .yearly =>
            let monthsDiff := (tvYear targetMonth - tvYear lastTxDate) * 12 +
              (tvMonth0 targetMonth - tvMonth0 lastTxDate)
            if Int.emod monthsDiff 12 = 0 then some (total + pattern.averageAmount)
            else some total
          | .irregular => some total) (0 : ℚ)

/-- The forecast-month key `` `${getFullYear()}-${pad2(getMonth()+1)}` ``
(the year is not zero-padded here, unlike `toISOString`). -/
def forecastMonthKey (tv : ℤ) : String :=
  toString (tvYear tv) ++ "-" ++ padNum 2 (tvMonth0 tv + 1).toNat

/-- The body of the forecast loop for month offset `i ≥ 1`: `none` when
`predictRecurringForMonth` throws. -/
noncomputable def forecastEntry (hist : List MonthRec) (trend : TrendPair)
    (recurringPatterns : List RecurringPattern) (now : ℤ) (i : ℕ) :
    Option MonthlyForecast :=
  let forecastDate := jsSetMonth now (tvMonth0 now + i)
  match predictRecurringForMonth recurringPatterns forecastDate .INCOME with
  | none => none
  | some recurringIncomeForMonth =>
    match predictRecurringForMonth recurringPatterns forecastDate .EXPENSE with
    | none => none
    | some recurringExpensesForMonth =>
      let predictedIncome : ℚ := max 0
        (trend.income.base + trend.income.slope * ((hist.length : ℚ) + i)
          + recurringIncomeForMonth)
      let predictedExpenses : ℚ := max 0
        (trend.expenses.base + trend.expenses.slope * ((hist.length : ℚ) + i)
          + recurringExpensesForMonth)
      some { month := forecastMonthKey forecastDate
             predictedIncome := predictedIncome
             predictedExpenses := predictedExpenses
             predictedSavings := predictedIncome - predictedExpenses
             confidenceScore :=
               calculateConfidenceScore hist trend i recurringPatterns }

/-- `generateMonthlyForecast`.  The source reads the clock (`new Date()`); the
embedding receives that reading as the explicit argument `now`.  The result is
`none` exactly when the JavaScript code throws (see
`predictRecurringForMonth`). -/
noncomputable def generateMonthlyForecast (transactions : List Transaction)
    (recurringPatterns : List RecurringPattern) (monthsToForecast : ℕ)
    (now : ℤ) : Option (List MonthlyForecast) :=
  let historicalMonthly := calculateHistoricalMonthlyTotals transactions
  let trend := calculateTrend historicalMonthly
  (List.range monthsToForecast).mapM (fun j =>
    forecastEntry historicalMonthly trend recurringPatterns now (j + 1))

/-- The `monthlyData` array of `generateCategoryForecasts` for one category:
the category's expense transactions aggregated into monthly totals keyed by
the ISO `YYYY-MM` month, sorted by month key. -/
def categoryMonthlyData (transactions : List Transaction) (category : Category) :
    List (String × ℚ) :=
  let categoryTxs := transactions.filter
    (fun tx => tx.categoryId = some category.id ∧ tx.type = .EXPENSE)
  let monthlyTotals := categoryTxs.foldl (fun acc tx =>
    upsert (isoMonthKey tx.date) (fun t => t + tx.amount) (0 : ℚ) acc) []
  List.insertionSort (fun a b => strLe a.1 b.1 = true) monthlyTotals

/-- The per-category body of `generateCategoryForecasts`: `none` when the
category is skipped (fewer than 3 expense transactions, or fewer than 2
distinct months).  The OLS denominators are nonzero as in `calculateTrend`;
the R² denominator (total sum of squares) genuinely can be zero, so that
division is a JavaScript division. -/
def categoryForecastFor (transactions : List Transaction) (category : Category) :
    Option CategoryForecast :=
  let categoryTxs := transactions.filter
    (fun tx => tx.categoryId = some category.id ∧ tx.type = .EXPENSE)
  if categoryTxs.length < 3 then none else
  let monthlyData := categoryMonthlyData transactions category
  if monthlyData.length < 2 then none else
  let n := monthlyData.length
  let xValues := (List.range n).map (fun i => (i : ℚ))
  let yValues := monthlyData.map (fun d => d.2)
  let sumX := xValues.sum
  let sumY := yValues.sum
  let sumXY := (xValues.zipWith (fun x y => x * y) yValues).sum
  let sumXX := (xValues.map (fun x => x * x)).sum
  let slope := ((n : ℚ) * sumXY - sumX * sumY) / ((n : ℚ) * sumXX - sumX * sumX)
  let intercept := (sumY - slope * sumX) / (n : ℚ)
  let currentMonthPrediction := intercept + slope * (n : ℚ)
  let nextMonthPrediction := intercept + slope * ((n : ℚ) + 1)
  let trend : TrendDir :=
    if slope < -(0.05 * (sumY / (n : ℚ))) then .decreasing
    else if slope > 0.05 * (sumY / (n : ℚ)) then .increasing
    else .stable
  let meanY := sumY / (n : ℚ)
  let totalSumSquares := (yValues.map (fun y => (y - meanY) ^ 2)).sum
  let predictedValues := xValues.map (fun x => intercept + slope * x)
  let residualSumSquares :=
    (yValues.zipWith (fun y p => (y - p) ^ 2) predictedValues).sum
  let rSquared := jsub (.fin 1)
    (jdiv (.fin residualSumSquares) (.fin totalSumSquares))
  let confidenceScore := jadd (jmul rSquared (.fin 0.8))
    (.fin (min 1 ((n : ℚ) / 12) * 0.2))
  some { categoryId := category.id
         categoryName := category.name
         currentMonthPrediction := max 0 currentMonthPrediction
         nextMonthPrediction := max 0 nextMonthPrediction
         trend := trend
         confidenceScore := jmax (.fin 0) (jmin (.fin 0.95) confidenceScore) }

/-- `generateCategoryForecasts`: the per-category forecasts in category-list
order, skipped categories omitted. -/
def generateCategoryForecasts (transactions : List Transaction)
    (categories : List Category) : List CategoryForecast :=
  categories.filterMap (categoryForecastFor transactions)

/-! ### Concrete inputs used by witnesses and counterexamples -/

/-- A single gym transaction with amount 5. -/
def txGym : TransactionWithPayee := ⟨⟨"z1", "Gym", 5, 0, .EXPENSE, none⟩, "Gym"⟩

/-- A recurring pattern whose `averageAmount` is zero (as arises from
all-refund or mixed-sign data) whose most recent transaction amount is 5. -/
def patZeroAvg : RecurringPattern := ⟨"Gym", "g", 0, .monthly, 0, 0, none, [txGym]⟩

/-- A well-typed recurring pattern whose `transactions` array is empty. -/
def patEmptyTxs : RecurringPattern := ⟨"X", "c", 10, .monthly, 1, 0, some 0, []⟩

/-- Two monthly "Coca-Cola" transactions, 30 days apart, in category `food`. -/
def txCoca1 : Transaction := ⟨"a1", "Coca-Cola", 10, 0, .EXPENSE, some "food"⟩

/-- The second Coca-Cola transaction (1970-01-31). -/
def txCoca2 : Transaction := ⟨"a2", "Coca-Cola", 10, 2592000000, .EXPENSE, some "food"⟩

/-- Category `c1` expenses: 10 + 10 in 1970-01 and 20 in 1970-02, so the two
monthly totals are both 20. -/
def txEq1 : Transaction := ⟨"t1", "a", 10, 0, .EXPENSE, some "c1"⟩

/-- Second equal-total transaction (1970-01-06). -/
def txEq2 : Transaction := ⟨"t2", "b", 10, 432000000, .EXPENSE, some "c1"⟩

/-- Third equal-total transaction (1970-02-05). -/
def txEq3 : Transaction := ⟨"t3", "c", 20, 3024000000, .EXPENSE, some "c1"⟩

/-- The category list for the equal-totals example. -/
def catFood : Category := ⟨"c1", "Food"⟩

/-- Rent transactions at days 0, 10 and 30: gaps `[10, 20]`, mean 15,
population standard deviation 5 (≥ 3, so the group is irregular). -/
def txRent1 : TransactionWithPayee := ⟨⟨"r1", "Rent", 100, 0, .EXPENSE, none⟩, "Rent"⟩

/-- Second rent transaction (day 10). -/
def txRent2 : TransactionWithPayee := ⟨⟨"r2", "Rent", 100, 864000000, .EXPENSE, none⟩, "Rent"⟩

/-- Third rent transaction (day 30). -/
def txRent3 : TransactionWithPayee := ⟨⟨"r3", "Rent", 100, 2592000000, .EXPENSE, none⟩, "Rent"⟩

/-- The pattern the detector emits for the two Coca-Cola transactions: note
the mangled `payee`/`categoryId` produced by `key.split('-')`, and the next
predicted date 1970-03-03 (the month-overflow normalisation of January 31
plus one month). -/
def patCoca : RecurringPattern :=
  { payee := "Coca"
    categoryId := "Cola"
    averageAmount := 10
    frequency := .monthly
    confidenceScore := 0.9
    lastTransactionDate := 2592000000
    nextPredictedDate := some 5270400000
    transactions := [toTWP txCoca1, toTWP txCoca2] }

/-! ### Auxiliary lemmas -/

/-- Every element of a successful `Option`-monadic map comes from some element
of the input list. -/
theorem mapM_option_mem {α β : Type} (f : α → Option β) :
    ∀ (l : List α) (l' : List β), l.mapM f = some l' →
      ∀ b ∈ l', ∃ a ∈ l, f a = some b := by
  intro l
  induction l with
  | nil =>
    intro l' h b hb
    simp only [List.mapM_nil, pure, Option.some.injEq] at h
    subst h
    simp at hb
  | cons x xs ih =>
    intro l' h b hb
    rw [List.mapM_cons] at h
    cases hfx : f x with
    | none => rw [hfx] at h; simp at h
    | some y =>
      rw [hfx] at h
      cases hxs : xs.mapM f with
      | none => rw [hxs] at h; simp at h
      | some ys =>
        rw [hxs] at h
        simp only [Option.bind_eq_bind, Option.some_bind, Option.pure_def,
          Option.some.injEq] at h
        subst h
        rcases List.mem_cons.mp hb with hb | hb
        · exact ⟨x, List.mem_cons_self .., hb ▸ hfx⟩
        · obtain ⟨a, ha, hfa⟩ := ih ys hxs b hb
          exact ⟨a, List.mem_cons_of_mem _ ha, hfa⟩

/-- When `f` succeeds on every element, `mapM` succeeds and preserves
length. -/
theorem mapM_option_some {α β : Type} (f : α → Option β) :
    ∀ l : List α, (∀ a ∈ l, ∃ b, f a = some b) →
      ∃ l', l.mapM f = some l' ∧ l'.length = l.length := by
  intro l
  induction l with
  | nil => exact fun _ => ⟨[], rfl, rfl⟩
  | cons x xs ih =>
    intro h
    obtain ⟨y, hy⟩ := h x (List.mem_cons_self ..)
    obtain ⟨ys, hys, hlen⟩ := ih (fun a ha => h a (List.mem_cons_of_mem _ ha))
    refine ⟨y :: ys, ?_, by simp [hlen]⟩
    rw [List.mapM_cons, hy, hys]
    rfl

/-- With no patterns supplied, a forecast entry always succeeds. -/
theorem forecastEntry_no_patterns (hist : List MonthRec) (trend : TrendPair)
    (now : ℤ) (i : ℕ) : ∃ e, forecastEntry hist trend [] now i = some e :=
  ⟨_, rfl⟩

/-- A successful forecast entry has clamped income and expenses and exact
savings. -/
theorem forecastEntry_fields (hist : List MonthRec) (trend : TrendPair)
    (pats : List RecurringPattern) (now : ℤ) (i : ℕ) (f : MonthlyForecast)
    (h : forecastEntry hist trend pats now i = some f) :
    0 ≤ f.predictedIncome ∧ 0 ≤ f.predictedExpenses ∧
      f.predictedSavings = f.predictedIncome - f.predictedExpenses := by
  unfold forecastEntry at h
  simp only [] at h
  split at h
  · exact absurd h (by simp)
  · split at h
    · exact absurd h (by simp)
    · injection h with h
      subst h
      exact ⟨le_max_left _ _, le_max_left _ _, rfl⟩

/-- The forecast months that `generateMonthlyForecast` labels when called at
1970-01-01 with no data: the single entry is for 1970-02. -/
theorem genMonthly_month_at_jan :
    (generateMonthlyForecast [] [] 1 0).map (fun l => l.map (fun f => f.month))
      = some ["1970-02"] := rfl

/-- The same call one month later (1970-02-02) labels 1970-03 instead. -/
theorem genMonthly_month_at_feb :
    (generateMonthlyForecast [] [] 1 2764800000).map
      (fun l => l.map (fun f => f.month)) = some ["1970-03"] := rfl

/-- A gap standard deviation is a square root, hence nonnegative. -/
theorem gapStdDev_nonneg (intervals : List ℤ) : 0 ≤ gapStdDev intervals :=
  Real.sqrt_nonneg _

/-- A group signal whose confidence clears the `0.6` emission threshold was
classified into one of the three named bands: its frequency is not
`irregular` and its confidence is at most `0.9`. -/
theorem groupSignal_high (intervals : List ℤ) (lastTx : ℤ)
    (h : (groupSignal intervals lastTx).2.1 > 0.6) :
    (groupSignal intervals lastTx).1 ≠ .irregular ∧
      (groupSignal intervals lastTx).2.1 ≤ 0.9 := by
  have hσ : 0 ≤ gapStdDev intervals := gapStdDev_nonneg intervals
  by_cases c1 : intervals.length > 0
  · by_cases c2 : gapStdDev intervals < 3
    · simp only [groupSignal, if_pos c1, if_pos c2] at h ⊢
      unfold classifyFrequency at h ⊢
      by_cases b1 : 25 ≤ meanGap intervals ∧ meanGap intervals ≤ 35
      · simp only [if_pos b1] at h ⊢
        exact ⟨by simp, by linarith⟩
      · by_cases b2 : 5 ≤ meanGap intervals ∧ meanGap intervals ≤ 9
        · simp only [if_neg b1, if_pos b2] at h ⊢
          exact ⟨by simp, by linarith⟩
        · by_cases b3 : 350 ≤ meanGap intervals ∧ meanGap intervals ≤ 380
          · simp only [if_neg b1, if_neg b2, if_pos b3] at h ⊢
            exact ⟨by simp, by linarith⟩
          · simp only [if_neg b1, if_neg b2, if_neg b3] at h
            have : gapStdDev intervals / 30 ≥ 0 := by positivity
            norm_num at h
            linarith
    · simp only [groupSignal, if_pos c1, if_neg c2] at h
      norm_num at h
  · simp only [groupSignal, if_neg c1] at h
    norm_num at h

/-- Full evaluation of the detector on the two Coca-Cola transactions: one
monthly pattern with confidence 0.9 whose `payee`/`categoryId` come from
`key.split('-')`. -/
theorem detectRecurring_coca_eval :
    detectRecurringTransactions [txCoca1, txCoca2] = [patCoca] := by
  simp only [detectRecurringTransactions, txCoca1, txCoca2, toTWP, groupByKey, groupKey,
    categoryIdOrDefault, List.map, List.foldl, upsert, List.filterMap]
  norm_num [analyzeGroup, sortByDateAsc, List.insertionSort, List.orderedInsert, gapsOf,
    groupSignal, meanGap, gapVariance, gapStdDev, lastDateOf, classifyFrequency,
    Real.sqrt_zero, patCoca, nextDateFor,
    (by decide : Int.fdiv 2592000000 86400000 = 30),
    (by decide : tvMonth0 2592000000 = 0),
    (by decide : jsSetMonth 2592000000 1 = 5270400000)]
  refine ⟨by decide, by decide, by decide, by decide⟩

/-! ### The claims -/

/-- C1: the claim that every zero denominator in `detectAnomalies` is guarded
fails on the pattern-level amount check.  For a recurring pattern whose
`averageAmount` is 0 and whose most recent transaction amount is 5, the code
computes `|5 − 0| / 0 = Infinity`, `Infinity > 0.2` holds, and an anomaly
carrying an infinite `amountDeviation` is emitted instead of the pattern
being skipped. -/
theorem C1_code_bug_unguarded_zero_average :
    (detectAnomalies [] [patZeroAvg]).map (fun a => a.amountDeviation)
      = [some JReal.posInf] := by
  simp [detectAnomalies, patternAnomalies, groupByKey, lastThree, patZeroAvg, txGym,
    List.insertionSort, List.orderedInsert, jdiv, jgt, JNum.toJReal]

/-- C9: the claim that `generateMonthlyForecast` never throws on any
well-typed `RecurringPattern` list fails: given a pattern whose
`transactions` array is empty, `predictRecurringForMonth` reads
`pattern.transactions[0].type` of `undefined` and throws a `TypeError`
(modelled by `none`) before any other check. -/
theorem C9_code_bug_throw_on_empty_transactions :
    generateMonthlyForecast [] [patEmptyTxs] 1 0 = none := rfl

/-- C4: the claim that every `CategoryForecast.confidenceScore` lies in
`[0, 0.95]` — including for categories whose monthly totals are all equal —
fails.  With monthly totals `[20, 20]` the total sum of squares is 0, so
`R² = 1 − 0/0 = NaN`, and `Math.max(0, Math.min(0.95, NaN))` is `NaN`, which
is emitted as the confidence score. -/
theorem C4_code_bug_nan_confidence :
    (generateCategoryForecasts [txEq1, txEq2, txEq3] [catFood]).map
      (fun f => f.confidenceScore) = [JNum.nan] := by
  norm_num [generateCategoryForecasts, categoryForecastFor, categoryMonthlyData,
    txEq1, txEq2, txEq3, catFood,
    List.filterMap, upsert, List.insertionSort, List.orderedInsert,
    (by decide : isoMonthKey 0 = "1970-01"),
    (by decide : isoMonthKey 432000000 = "1970-01"),
    (by decide : isoMonthKey 3024000000 = "1970-02"),
    (by decide : strLe "1970-01" "1970-02" = true),
    (by decide : List.range 2 = [0, 1]),
    jdiv, jsub, jadd, jneg, jmul, jmax, jmin, List.zipWith]

/-- C7: the claim that an emitted pattern's `(payee, categoryId)` equals the
grouping key for every payee, including payees containing `-`, fails.  For
the payee `Coca-Cola` in category `food`, the key `Coca-Cola-food` is split
at every `-`, and the destructuring takes the first two fragments: the
emitted pattern has `payee = "Coca"` and `categoryId = "Cola"`. -/
theorem C7_code_bug_key_split :
    (detectRecurringTransactions [txCoca1, txCoca2]).map
      (fun p => (p.payee, p.categoryId)) = [("Coca", "Cola")] := by
  rw [detectRecurring_coca_eval]
  rfl

/-- C2 (counterexample): `generateMonthlyForecast` is not independent of the
current clock date.  With identical arguments (no transactions, no patterns,
one month to forecast), calling at 1970-01-01 and at 1970-02-02 returns
different outputs — the forecast month labels differ. -/
theorem C2_counterexample_clock_dependence :
    generateMonthlyForecast [] [] 1 0 ≠ generateMonthlyForecast [] [] 1 2764800000 := by
  intro h
  have h1 := genMonthly_month_at_jan
  rw [h, genMonthly_month_at_feb] at h1
  exact absurd h1 (by decide)

/-- C2 (amended): `detectRecurringTransactions`, `detectAnomalies` and
`generateCategoryForecasts` are pure functions of their call-time arguments —
two invocations on identical inputs return identical outputs.
`generateMonthlyForecast` is a pure function of its arguments and the current
clock date, on which it genuinely depends: with all supplied arguments
identical, two different clock dates can produce different outputs. -/
theorem C2_amended_purity :
    (∀ txs₁ txs₂ : List Transaction, txs₁ = txs₂ →
      detectRecurringTransactions txs₁ = detectRecurringTransactions txs₂)
    ∧ (∀ (txs₁ txs₂ : List Transaction) (pats₁ pats₂ : List RecurringPattern),
      txs₁ = txs₂ → pats₁ = pats₂ →
      detectAnomalies txs₁ pats₁ = detectAnomalies txs₂ pats₂)
    ∧ (∀ (txs₁ txs₂ : List Transaction) (cats₁ cats₂ : List Category),
      txs₁ = txs₂ → cats₁ = cats₂ →
      generateCategoryForecasts txs₁ cats₁ = generateCategoryForecasts txs₂ cats₂)
    ∧ (∀ (txs₁ txs₂ : List Transaction) (pats₁ pats₂ : List RecurringPattern)
      (m₁ m₂ : ℕ) (now₁ now₂ : ℤ), txs₁ = txs₂ → pats₁ = pats₂ → m₁ = m₂ → now₁ = now₂ →
      generateMonthlyForecast txs₁ pats₁ m₁ now₁ = generateMonthlyForecast txs₂ pats₂ m₂ now₂)
    ∧ (∃ now₁ now₂ : ℤ,
      generateMonthlyForecast [] [] 1 now₁ ≠ generateMonthlyForecast [] [] 1 now₂) := by
  refine ⟨fun _ _ h => by rw [h], fun _ _ _ _ h h' => by rw [h, h'],
    fun _ _ _ _ h h' => by rw [h, h'],
    fun _ _ _ _ _ _ _ _ h h' h'' h''' => by rw [h, h', h'', h'''],
    0, 2764800000, ?_⟩
  intro h
  have h1 := genMonthly_month_at_jan
  rw [h, genMonthly_month_at_feb] at h1
  exact absurd h1 (by decide)

/-- C2 (witness): the purity statements applied at concrete inputs. -/
theorem C2_amended_purity_witness :
    detectRecurringTransactions [txCoca1] = detectRecurringTransactions [txCoca1]
    ∧ generateMonthlyForecast [] [] 1 0 = generateMonthlyForecast [] [] 1 0 :=
  ⟨C2_amended_purity.1 [txCoca1] [txCoca1] rfl,
   C2_amended_purity.2.2.2.1 [] [] [] [] 1 1 0 0 rfl rfl rfl rfl⟩

/-- C8 (counterexample): on an empty transaction collection (and empty
pattern list), `generateMonthlyForecast` does not return an empty array: it
returns one placeholder forecast per requested month (three by default). -/
theorem C8_counterexample_nonempty_forecast :
    generateMonthlyForecast [] [] 3 0 ≠ some [] := by
  intro h
  have h3 : (generateMonthlyForecast [] [] 3 0).map List.length = some 3 := rfl
  rw [h] at h3
  simp at h3

/-- C8 (amended): with an empty transaction collection,
`detectRecurringTransactions`, `detectAnomalies` (with an empty pattern list)
and `generateCategoryForecasts` return empty arrays and never throw, while
`generateMonthlyForecast` never throws but returns one forecast entry per
requested month rather than an empty array. -/
theorem C8_amended_empty_inputs :
    detectRecurringTransactions [] = []
    ∧ detectAnomalies [] [] = []
    ∧ (∀ cats : List Category, generateCategoryForecasts [] cats = [])
    ∧ (∀ (m : ℕ) (now : ℤ), ∃ l, generateMonthlyForecast [] [] m now = some l
        ∧ l.length = m) := by
  refine ⟨rfl, rfl, fun cats => ?_, fun m now => ?_⟩
  · simp only [generateCategoryForecasts]
    exact List.filterMap_eq_nil_iff.mpr (fun cat _ => rfl)
  · obtain ⟨l, hl, hlen⟩ := mapM_option_some
      (fun j => forecastEntry (calculateHistoricalMonthlyTotals [])
        (calculateTrend (calculateHistoricalMonthlyTotals [])) [] now (j + 1))
      (List.range m) (fun a _ => forecastEntry_no_patterns _ _ _ _)
    exact ⟨l, hl, by rw [hlen, List.length_range]⟩

/-- C5: every entry of a successful `generateMonthlyForecast` has
`predictedIncome ≥ 0` and `predictedExpenses ≥ 0` (each clamped by
`Math.max(0, ·)` regardless of the fitted trend direction), and
`predictedSavings` equals `predictedIncome − predictedExpenses` exactly,
computed after the clamping. -/
theorem C5_forecast_nonnegativity :
    ∀ (txs : List Transaction) (pats : List RecurringPattern) (m : ℕ) (now : ℤ)
      (l : List MonthlyForecast), generateMonthlyForecast txs pats m now = some l →
      ∀ f ∈ l, 0 ≤ f.predictedIncome ∧ 0 ≤ f.predictedExpenses ∧
        f.predictedSavings = f.predictedIncome - f.predictedExpenses := by
  intro txs pats m now l h f hf
  simp only [generateMonthlyForecast] at h
  obtain ⟨j, _, hj⟩ := mapM_option_mem _ _ _ h f hf
  exact forecastEntry_fields _ _ _ _ _ _ hj

/-- C5 (witness): the non-negativity statement applied to the concrete
forecast produced at 1970-01-01 from empty inputs. -/
theorem C5_forecast_nonnegativity_witness :
    ∃ l, generateMonthlyForecast [] [] 1 0 = some l ∧
      ∀ f ∈ l, 0 ≤ f.predictedIncome ∧ 0 ≤ f.predictedExpenses ∧
        f.predictedSavings = f.predictedIncome - f.predictedExpenses :=
  ⟨_, rfl, fun f hf => C5_forecast_nonnegativity [] [] 1 0 _ rfl f hf⟩

/-- C6: the minimum-sample thresholds silently omit output: a group of one
transaction yields no `RecurringPattern`; a category group of at most four
transactions contributes no category-level anomaly; a category with fewer
than three expense transactions, or fewer than two distinct months of totals,
produces no `CategoryForecast` entry.  All three functions are total, so
nothing is raised. -/
theorem C6_minimum_samples :
    (∀ (key : String) (txs : List TransactionWithPayee), txs.length = 1 →
      analyzeGroup key txs = none)
    ∧ (∀ g : List TransactionWithPayee, g.length ≤ 4 → categoryAnomalies g = [])
    ∧ (∀ (txs : List Transaction) (cat : Category),
      (txs.filter (fun tx => tx.categoryId = some cat.id ∧ tx.type = .EXPENSE)).length < 3
        ∨ (categoryMonthlyData txs cat).length < 2 →
      categoryForecastFor txs cat = none) := by
  refine ⟨fun key txs h => ?_, fun g h => ?_, fun txs cat h => ?_⟩
  · unfold analyzeGroup
    rw [if_pos (by omega)]
  · unfold categoryAnomalies
    rw [if_pos (by omega)]
  · unfold categoryForecastFor
    rcases h with h | h
    · rw [if_pos h]
    · by_cases h3 : (txs.filter
        (fun tx => tx.categoryId = some cat.id ∧ tx.type = .EXPENSE)).length < 3
      · rw [if_pos h3]
      · rw [if_neg h3]
        simp only []
        rw [if_pos h]

/-- C6 (witness): a singleton group, a four-transaction category group, and a
category with two transactions (hence one or two months but fewer than three
expenses), each concretely omitted. -/
theorem C6_minimum_samples_witness :
    analyzeGroup "Gym-uncategorized" [txGym] = none
    ∧ categoryAnomalies [txRent1, txRent2, txRent3, txGym] = []
    ∧ categoryForecastFor [txEq1, txEq2] catFood = none :=
  ⟨C6_minimum_samples.1 _ _ (by decide),
   C6_minimum_samples.2.1 _ (by decide),
   C6_minimum_samples.2.2 [txEq1, txEq2] catFood (Or.inl (by decide))⟩

/-- C3: for a group of at least two transactions, a gap standard deviation of
at least 3 days suppresses the group entirely; below 3 days, the mean-gap
bands `[25, 35]`, `[5, 9]` and `[350, 380]` classify as `monthly`, `weekly`
and `yearly` with confidences `0.9 − σ/30`, `0.9 − σ/7` and `0.9 − σ/365`,
any other mean gap classifies as `irregular` with confidence `0.5 − σ/30`;
and the concrete gap lists `[30, 30, 30]` and `[7, 7, 7]` classify as
`monthly` and `weekly`, both with confidence 0.9. -/
theorem C3_gap_classification :
    (∀ (key : String) (txs : List TransactionWithPayee), 2 ≤ txs.length →
      3 ≤ gapStdDev (gapsOf (sortByDateAsc txs)) → analyzeGroup key txs = none)
    ∧ (∀ (μ : ℚ) (σ : ℝ), σ < 3 →
      ((25 ≤ μ ∧ μ ≤ 35) → classifyFrequency μ σ = (.monthly, 0.9 - σ / 30))
      ∧ ((5 ≤ μ ∧ μ ≤ 9) → classifyFrequency μ σ = (.weekly, 0.9 - σ / 7))
      ∧ ((350 ≤ μ ∧ μ ≤ 380) → classifyFrequency μ σ = (.yearly, 0.9 - σ / 365))
      ∧ (¬(25 ≤ μ ∧ μ ≤ 35) → ¬(5 ≤ μ ∧ μ ≤ 9) → ¬(350 ≤ μ ∧ μ ≤ 380) →
        classifyFrequency μ σ = (.irregular, 0.5 - σ / 30)))
    ∧ classifyFrequency (meanGap [30, 30, 30]) (gapStdDev [30, 30, 30])
        = (.monthly, 0.9)
    ∧ classifyFrequency (meanGap [7, 7, 7]) (gapStdDev [7, 7, 7])
        = (.weekly, 0.9) := by
  have hband : ∀ (μ : ℚ) (σ : ℝ), (25 ≤ μ ∧ μ ≤ 35) →
      classifyFrequency μ σ = (.monthly, 0.9 - σ / 30) := by
    intro μ σ hb
    unfold classifyFrequency
    rw [if_pos hb]
  refine ⟨fun key txs h2 h3 => ?_, fun μ σ hσ => ?_, ?_, ?_⟩
  · have hconf : (groupSignal (gapsOf (sortByDateAsc txs))
        (lastDateOf (sortByDateAsc txs))).2.1 = 0 := by
      unfold groupSignal
      by_cases c1 : (gapsOf (sortByDateAsc txs)).length > 0
      · rw [if_pos c1]
        simp only []
        rw [if_neg (not_lt.mpr h3)]
      · rw [if_neg c1]
    unfold analyzeGroup
    rw [if_neg (by omega)]
    simp only []
    rw [if_neg (by rw [hconf]; norm_num)]
  · refine ⟨hband μ σ, fun hb => ?_, fun hb => ?_, fun h1 h2 h3 => ?_⟩
    · unfold classifyFrequency
      rw [if_neg (by rintro ⟨h25, _⟩; linarith [hb.2]), if_pos hb]
    · unfold classifyFrequency
      rw [if_neg (by rintro ⟨_, h35⟩; linarith [hb.1]),
        if_neg (by rintro ⟨_, h9⟩; linarith [hb.1]), if_pos hb]
    · unfold classifyFrequency
      rw [if_neg h1, if_neg h2, if_neg h3]
  · have hm : meanGap [30, 30, 30] = 30 := by norm_num [meanGap]
    have hv : gapVariance [30, 30, 30] = 0 := by norm_num [gapVariance, meanGap]
    have hs : gapStdDev [30, 30, 30] = 0 := by
      unfold gapStdDev
      rw [hv]
      norm_num [Real.sqrt_zero]
    rw [hm, hs, hband 30 0 (by norm_num)]
    norm_num
  · have hm : meanGap [7, 7, 7] = 7 := by norm_num [meanGap]
    have hv : gapVariance [7, 7, 7] = 0 := by norm_num [gapVariance, meanGap]
    have hs : gapStdDev [7, 7, 7] = 0 := by
      unfold gapStdDev
      rw [hv]
      norm_num [Real.sqrt_zero]
    rw [hm, hs]
    unfold classifyFrequency
    rw [if_neg (by rintro ⟨h25, _⟩; linarith), if_pos (by norm_num)]
    norm_num

/-- C3 (witness): the rent group with gaps `[10, 20]` (standard deviation 5)
is suppressed, and a mean gap of 30 with standard deviation 0 classifies as
monthly. -/
theorem C3_gap_classification_witness :
    analyzeGroup "Rent-uncategorized" [txRent1, txRent2, txRent3] = none
    ∧ classifyFrequency 30 0 = (.monthly, 0.9 - (0 : ℝ) / 30) := by
  constructor
  · apply C3_gap_classification.1 _ _ (by decide)
    have hsort : sortByDateAsc [txRent1, txRent2, txRent3]
        = [txRent1, txRent2, txRent3] := by decide
    have hgaps : gapsOf [txRent1, txRent2, txRent3] = [10, 20] := by decide
    have hv : gapVariance [10, 20] = 25 := by norm_num [gapVariance, meanGap]
    rw [hsort, hgaps]
    unfold gapStdDev
    rw [hv, show ((25 : ℚ) : ℝ) = (5 : ℝ) ^ 2 by norm_num,
      Real.sqrt_sq (by norm_num)]
    norm_num
  · exact (C3_gap_classification.2.1 30 0 (by norm_num)).1 (by norm_num)

/-- C10: every emitted recurring pattern has frequency `monthly`, `weekly` or
`yearly` — never `irregular`, whose confidence `0.5 − σ/30 ≤ 0.5` cannot
clear the `0.6` emission threshold — and confidence at most `0.9`, the upper
bound of every band formula. -/
theorem C10_no_irregular_emitted :
    ∀ (txs : List Transaction) (p : RecurringPattern),
      p ∈ detectRecurringTransactions txs →
      p.frequency ≠ .irregular ∧ p.confidenceScore ≤ 0.9 := by
  intro txs p hp
  simp only [detectRecurringTransactions] at hp
  rw [List.mem_filterMap] at hp
  obtain ⟨kg, _, hag⟩ := hp
  unfold analyzeGroup at hag
  split at hag
  · exact absurd hag (by simp)
  · simp only [] at hag
    split at hag
    case isTrue h06 =>
      injection hag with h
      subst h
      have hgs := groupSignal_high _ _ h06
      exact ⟨hgs.1, hgs.2⟩
    case isFalse h06 => exact absurd hag (by simp)

/-- C10 (witness): the pattern emitted for the Coca-Cola transactions is
monthly (not irregular) with confidence `0.9 ≤ 0.9`. -/
theorem C10_no_irregular_emitted_witness :
    patCoca.frequency ≠ .irregular ∧ patCoca.confidenceScore ≤ 0.9 :=
  C10_no_irregular_emitted [txCoca1, txCoca2] patCoca
    (by rw [detectRecurring_coca_eval]; exact List.mem_singleton_self _)

end PersonalFinance
